import Mathlib

/-!
# Prompt relay server (`src/server.js`)

A shallow embedding of the Express server of `src/server.js`: the JavaScript
values the handler of `POST /generate` inspects, the handler itself as a
function from the request and the behaviour of the upstream completion call to
the trace of effects it performs, and the start-up sequence of the module.
-/

namespace Server

/-! ## JavaScript values -/

/-- The JavaScript values that reach the handler: JSON data plus `undefined`.
A number is written as an integer and stands for the double nearest to it;
fractions, `NaN` and the negative zero are not modelled. An object is the list
of its own properties, the first binding of a key being the one that is read;
no property holds a function. -/
inductive JSValue where
  | undefined : JSValue
  | null : JSValue
  | bool (b : Bool) : JSValue
  | number (n : Int) : JSValue
  | string (s : String) : JSValue
  | array (items : List JSValue) : JSValue
  | object (props : List (String × JSValue)) : JSValue

namespace JSValue

/-- JavaScript `ToBoolean`: `undefined`, `null`, `false`, `0` and `""` are
falsy, everything else (arrays and objects included) is truthy. -/
def truthy : JSValue → Bool
  | undefined => false
  | null => false
  | bool b => b
  | number n => n != 0
  | string s => s != ""
  | array _ => true
  | object _ => true

/-- Whether a value is `null` or `undefined`: reading a property of such a value
throws, and `?.` short-circuits on it. -/
def isNullish : JSValue → Bool
  | undefined => true
  | null => true
  | _ => false

/-- The double nearest to a natural number, ties to the even significand, as a
natural number; `none` when that is infinity. -/
def nearestDouble (n : Nat) : Option Nat :=
  if n < 2 ^ 53 then some n
  else
    let shift := (Nat.toDigits 2 n).length - 53
    let significand := n / 2 ^ shift
    let rest := n % 2 ^ shift
    let half := 2 ^ (shift - 1)
    let significand :=
      if half < rest ∨ (rest = half ∧ significand % 2 = 1) then significand + 1 else significand
    let d := significand * 2 ^ shift
    if d < 2 ^ 1024 then some d else none

/-- The decimal with the fewest significant digits whose nearest double is `d`,
searched from `k` significant digits on; of two with the same number of digits
the one closer to `d`, and the even one on a tie. -/
def shortestDecimal (d : Nat) : Nat → Nat → Nat
  | 0, _ => d
  | fuel + 1, k =>
    let digits := (Nat.toDigits 10 d).length
    if digits ≤ k then d
    else
      let unit := 10 ^ (digits - k)
      let low := d / unit * unit
      let high := low + unit
      let lowFits := nearestDouble low = some d
      let highFits := nearestDouble high = some d
      if lowFits ∧ highFits then
        if d - low < high - d then low
        else if high - d < d - low then high
        else if (d / unit) % 2 = 0 then low else high
      else if lowFits then low
      else if highFits then high
      else shortestDecimal d fuel (k + 1)

/-- Drops the zeros at the end of a list of digits. -/
def dropTrailingZeros (digits : List Char) : List Char :=
  (digits.reverse.dropWhile (fun c => c == '0')).reverse

/-- The text of a positive double with an integer value (`Number::toString`):
the shortest decimal that reads back as the double, in plain digits up to 21
digits and in exponent form beyond. -/
def positiveText (d : Nat) : String :=
  let value := shortestDecimal d 17 1
  let digits := Nat.toDigits 10 value
  if digits.length ≤ 21 then String.mk digits
  else
    match dropTrailingZeros digits with
    | [] => "0"
    | [c] => String.mk [c] ++ "e+" ++ toString (digits.length - 1)
    | c :: more => String.mk (c :: '.' :: more) ++ "e+" ++ toString (digits.length - 1)

/-- The text JavaScript prints for the number written as the integer `n`: the
`Number::toString` of the double nearest to `n`. -/
def numberText (n : Int) : String :=
  if n = 0 then "0"
  else
    let sign := if n < 0 then "-" else ""
    match nearestDouble n.natAbs with
    | none => sign ++ "Infinity"
    | some d => sign ++ positiveText d

/-- The `TypeError` V8 throws when an object has no usable `toString` and
`valueOf`; only its own `message` property is modelled. -/
def conversionError : JSValue :=
  object [("message", string "Cannot convert object to primitive value")]

/-- Whether a property list has an own property of that name. -/
def hasKey (name : String) (props : List (String × JSValue)) : Bool :=
  props.any (fun kv => kv.1 == name)

mutual
/-- JavaScript `ToString` on plain data, as done by `"..." + v` and by a
template literal: the text, or the value thrown. An object converts through
`Object.prototype.toString` unless an own `toString` property, which holds no
function, hides it; then the conversion throws, as the inherited `valueOf`
yields the object itself. An array converts through `join`. -/
def toStr : JSValue → Except JSValue String
  | undefined => .ok "undefined"
  | null => .ok "null"
  | bool b => .ok (if b then "true" else "false")
  | number n => .ok (numberText n)
  | string s => .ok s
  | array items => joinItems items
  | object props => if hasKey "toString" props then .error conversionError else .ok "[object Object]"
/-- The text of `Array.prototype.join(",")`, element by element from the left:
`null` and `undefined` elements give the empty text. -/
def joinItems : List JSValue → Except JSValue String
  | [] => .ok ""
  | [v] => itemStr v
  | v :: w :: rest =>
    match itemStr v with
    | .error e => .error e
    | .ok first =>
      match joinItems (w :: rest) with
      | .error e => .error e
      | .ok more => .ok (first ++ "," ++ more)
/-- The text of one array element inside `join`. -/
def itemStr : JSValue → Except JSValue String
  | undefined => .ok ""
  | null => .ok ""
  | bool b => .ok (if b then "true" else "false")
  | number n => .ok (numberText n)
  | string s => .ok s
  | array items => joinItems items
  | object props => if hasKey "toString" props then .error conversionError else .ok "[object Object]"
end

/-- The `TypeError` V8 throws when a property of `null` or `undefined` is read;
only its own `message` property is modelled. -/
def typeError (base : String) (key : String) : JSValue :=
  object [("message", string ("Cannot read properties of " ++ base ++ " (reading '" ++ key ++ "')"))]

/-- Own-property lookup in an object: the first binding of the key, else
`undefined`. -/
def lookup (key : String) : List (String × JSValue) → JSValue
  | [] => undefined
  | (k, v) :: rest => if k = key then v else lookup key rest

/-- The `length` of a text: its number of UTF-16 code units. -/
def utf16Length (s : String) : Nat :=
  s.data.foldl (fun n c => n + (if c.val < 0x10000 then 1 else 2)) 0

/-- Property read `v.name` for a non-index name. It throws on `null` and
`undefined`. Members of the built-in prototypes are not modelled: none of the
names the server reads is one, except `Error.prototype.message`, which is the
falsy `""`. -/
def getProp (v : JSValue) (name : String) : Except JSValue JSValue :=
  match v with
  | undefined => .error (typeError "undefined" name)
  | null => .error (typeError "null" name)
  | object props => .ok (lookup name props)
  | array items => .ok (if name = "length" then number items.length else undefined)
  | string s => .ok (if name = "length" then number (utf16Length s) else undefined)
  | bool _ => .ok undefined
  | number _ => .ok undefined

/-- Indexed read `v[i]`. On text it yields the one-character text at that
position (by code point). -/
def getIndex (v : JSValue) (i : Nat) : Except JSValue JSValue :=
  match v with
  | undefined => .error (typeError "undefined" (toString i))
  | null => .error (typeError "null" (toString i))
  | object props => .ok (lookup (toString i) props)
  | array items => .ok (items.getD i undefined)
  | string s => .ok (match s.data.get? i with
      | some c => string (String.singleton c)
      | none => undefined)
  | bool _ => .ok undefined
  | number _ => .ok undefined

/-- Optional read `v?.name`: `undefined` when `v` is `null` or `undefined`. -/
def getPropOpt (v : JSValue) (name : String) : JSValue :=
  match v with
  | undefined => undefined
  | null => undefined
  | object props => lookup name props
  | array items => if name = "length" then number items.length else undefined
  | string s => if name = "length" then number (utf16Length s) else undefined
  | bool _ => undefined
  | number _ => undefined

/-- JavaScript `a || b`. -/
def orElse (a b : JSValue) : JSValue :=
  if a.truthy then a else b

end JSValue

/-! ## The `POST /generate` handler -/

/-- The two console streams the server writes to. -/
inductive LogLevel where
  | info
  | error

/-- An effect of the handler that is visible outside it. -/
inductive Event where
  /-- A `console.log` or `console.error` with its arguments. -/
  | log (level : LogLevel) (args : List JSValue) : Event
  /-- The call `openai.chat.completions.create(args)`. -/
  | call (args : JSValue) : Event
  /-- A response: `res.status(status).json(body)`; `res.json(body)` alone
  sends with the default status 200. The status is the value handed to
  `res.status`. -/
  | send (status : JSValue) (body : JSValue) : Event

/-- How the promise of the `async` handler settles: fulfilled, or rejected
because a value was thrown out of the handler. What Express does with a
rejection is outside `server.js`. -/
inductive Settled where
  | fulfilled : Settled
  | rejected : Settled

/-- One execution of the handler: its effects in order, and how it ended. -/
structure Run where
  events : List Event
  settled : Settled

/-- The request as far as the handler reads it: `req.body`. -/
structure Request where
  body : JSValue

/-- The upstream completion call `openai.chat.completions.create`: for the
argument object, either the completion it resolves to or the failure it rejects
with. -/
abbrev Upstream := JSValue → Except JSValue JSValue

open JSValue

/-- An error payload: `{ error: { message: m } }`. -/
def errorBody (m : String) : JSValue :=
  object [("error", object [("message", string m)])]

/-- A success payload: `{ response: text }`. -/
def responseBody (text : String) : JSValue :=
  object [("response", string text)]

/-- The argument of the upstream call for a prompt (lines 54-63). -/
def completionRequest (userPrompt : JSValue) : JSValue :=
  object [
    ("model", string "google/gemini-2.5-flash-preview:thinking"),
    ("messages", array [object [("role", string "user"), ("content", userPrompt)]]),
    ("reasoning", object [("include", bool true)])]

/-- The expression `completion.choices[0]?.message?.<field>` (lines 67-68): the
two plain reads throw on `null` and `undefined`, the two `?.` reads do not. -/
def firstChoiceField (completion : JSValue) (field : String) : Except JSValue JSValue :=
  match getProp completion "choices" with
  | .error e => .error e
  | .ok choices =>
    match getIndex choices 0 with
    | .error e => .error e
    | .ok choice => .ok (getPropOpt (getPropOpt choice "message") field)

/-- The statement `responseToSend += label + value + tail` of lines 73 and
77: the conversion of the value may throw. -/
def appendBlock (responseToSend label : String) (value : JSValue) (tail : String) :
    Except JSValue String :=
  match toStr value with
  | .error e => .error e
  | .ok text => .ok (responseToSend ++ (label ++ text ++ tail))

/-- The reply text built at lines 70-78 from the reasoning and the content, or
the value thrown while building it. -/
def buildResponse (aiReasoning aiResponseContent : JSValue) : Except JSValue String :=
  let responseToSend := ""
  match (if aiReasoning.truthy then
      appendBlock responseToSend "Reasoning:\n---\n" aiReasoning "\n\n"
    else .ok responseToSend) with
  | .error e => .error e
  | .ok responseToSend =>
    if aiResponseContent.truthy then
      appendBlock responseToSend "Content:\n---\n" aiResponseContent ""
    else .ok responseToSend

/-- The body of the `try` block (lines 54-89): the effects it performs and
either normal completion or the value it throws. -/
def tryBlock (create : Upstream) (userPrompt : JSValue) : List Event × Except JSValue Unit :=
  let request := completionRequest userPrompt
  match create request with
  | .error e => ([Event.call request], .error e)
  | .ok completion =>
    match firstChoiceField completion "content" with
    | .error e => ([Event.call request], .error e)
    | .ok aiResponseContent =>
      match firstChoiceField completion "reasoning" with
      | .error e => ([Event.call request], .error e)
      | .ok aiReasoning =>
        match buildResponse aiReasoning aiResponseContent with
        | .error e => ([Event.call request], .error e)
        | .ok responseToSend =>
          if !(string responseToSend).truthy then
            ([Event.call request,
              Event.log .error
                [string "OpenRouter response did not contain content or reasoning:", completion],
              Event.send (number 500) (errorBody "OpenRouter returned an empty response.")],
             .ok ())
          else
            ([Event.call request,
              Event.log .info [string "Generated response successfully."],
              Event.send (number 200) (responseBody responseToSend)],
             .ok ())

/-- The expression `error.response?.data?.error?.message` (line 94). -/
def nestedDetail (error : JSValue) : Except JSValue JSValue :=
  match getProp error "response" with
  | .error e => .error e
  | .ok response => .ok (getPropOpt (getPropOpt (getPropOpt response "data") "error") "message")

/-- Whether `res.status(code)` of Express 5 accepts the code: it takes an
integer from 100 to 999 and throws for every other value. -/
def acceptsStatus : JSValue → Bool
  | number n => decide (100 ≤ n) && decide (n ≤ 999)
  | _ => false

/-- The body of the `catch` block (lines 92-95): its effects and how the
handler ends. Reading a property of a thrown `null` or `undefined` throws in
turn; at line 95 `res.status` runs first and may throw, then the template
literal is converted and may throw, and only then is the response sent. -/
def catchBlock (error : JSValue) : List Event × Settled :=
  let logged := [Event.log .error [string "Error calling OpenRouter API:", error]]
  match nestedDetail error with
  | .error _ => (logged, .rejected)
  | .ok detail =>
    match getProp error "message" with
    | .error _ => (logged, .rejected)
    | .ok message =>
      let errorMessage := orElse (orElse detail message) (string "An unexpected error occurred.")
      match getProp error "status" with
      | .error _ => (logged, .rejected)
      | .ok status =>
        if !acceptsStatus (orElse status (number 500)) then (logged, .rejected)
        else
          match toStr errorMessage with
          | .error _ => (logged, .rejected)
          | .ok text =>
            (logged ++ [Event.send (orElse status (number 500)) (errorBody ("API Error: " ++ text))],
             .fulfilled)

/-- The handler of `POST /generate` (lines 43-97). The template literal of the
log line 50 stands before the `try` block: what its conversion throws leaves
the handler. -/
def generate (create : Upstream) (req : Request) : Run :=
  match getProp req.body "prompt" with
  | .error _ => ⟨[], .rejected⟩
  | .ok userPrompt =>
    if !userPrompt.truthy then
      ⟨[Event.send (number 400) (errorBody "Prompt is required in the request body.")], .fulfilled⟩
    else
      match toStr userPrompt with
      | .error _ => ⟨[], .rejected⟩
      | .ok promptText =>
        let received := [Event.log .info [string ("Received prompt: \"" ++ promptText ++ "\"")]]
        match tryBlock create userPrompt with
        | (events, .ok ()) => ⟨received ++ events, .fulfilled⟩
        | (events, .error error) =>
          match catchBlock error with
          | (handled, settled) => ⟨received ++ events ++ handled, settled⟩

/-- The arguments of the upstream calls of a trace, in order. -/
def calls : List Event → List JSValue
  | [] => []
  | Event.call args :: rest => args :: calls rest
  | _ :: rest => calls rest

/-- The responses of a trace, in order, as status and body. -/
def sends : List Event → List (JSValue × JSValue)
  | [] => []
  | Event.send status body :: rest => (status, body) :: sends rest
  | _ :: rest => sends rest

/-! ## Start-up of the module -/

/-- The environment `process.env` as it stands after `dotenv.config()`: a
variable is unset or holds a text. -/
abbrev Env := String → Option String

/-- The value of `process.env.<name>`. -/
def envValue (env : Env) (name : String) : JSValue :=
  match env name with
  | some s => string s
  | none => undefined

/-- An effect of loading the module (lines 14-104), in program order. -/
inductive StartupEvent where
  /-- An `app.use(...)` of the named middleware. -/
  | use (middleware : String) : StartupEvent
  /-- A `console.error` line. -/
  | logError (text : String) : StartupEvent
  /-- The call `process.exit(code)`, after which nothing runs. -/
  | exit (code : Nat) : StartupEvent
  /-- The construction `new OpenAI({ baseURL, apiKey, defaultHeaders })`. -/
  | createClient (baseURL : String) (apiKey : JSValue) (defaultHeaders : List (String × String)) : StartupEvent
  /-- The registration `app.post(path, handler)`. -/
  | post (path : String) : StartupEvent
  /-- The call `app.listen(port, ...)`. -/
  | listen (port : JSValue) : StartupEvent

/-- The constant `port` of line 15. -/
def port (env : Env) : JSValue :=
  orElse (envValue env "PORT") (number 3000)

/-- The top-level statements of `server.js` from line 14 on. -/
def startup (env : Env) : List StartupEvent :=
  let port := port env
  let configured := [StartupEvent.use "express.json", StartupEvent.use "express.static"]
  let openrouterApiKey := envValue env "OPENROUTER_API_KEY"
  if !openrouterApiKey.truthy then
    configured ++ [
      StartupEvent.logError "Error: OPENROUTER_API_KEY not found in .env file or environment variables.",
      StartupEvent.logError "Please set OPENROUTER_API_KEY to your OpenRouter API key.",
      StartupEvent.exit 1]
  else
    configured ++ [
      StartupEvent.createClient "https://openrouter.ai/api/v1" openrouterApiKey
        [("HTTP-Referer", "http://localhost:3000"), ("X-Title", "Your App Name Here")],
      StartupEvent.post "/generate",
      StartupEvent.listen port]

/-- Whether the start-up trace registers the route `POST /generate`. -/
def registersGenerate : List StartupEvent → Bool
  | [] => false
  | StartupEvent.post path :: rest => path == "/generate" || registersGenerate rest
  | _ :: rest => registersGenerate rest

/-- A `POST /generate` request to the process started under `env`: no run when
start-up never registered the route, else the run of the handler. -/
def serve (env : Env) (create : Upstream) (req : Request) : Option Run :=
  if registersGenerate (startup env) then some (generate create req) else none

/-- Whether a start-up trace creates the upstream client. -/
def createsClient : List StartupEvent → Bool
  | [] => false
  | StartupEvent.createClient _ _ _ :: _ => true
  | _ :: rest => createsClient rest

/-- The ports a start-up trace listens on, in order. -/
def listens : List StartupEvent → List JSValue
  | [] => []
  | StartupEvent.listen port :: rest => port :: listens rest
  | _ :: rest => listens rest

/-- The exit codes a start-up trace terminates with, in order. -/
def exits : List StartupEvent → List Nat
  | [] => []
  | StartupEvent.exit code :: rest => code :: exits rest
  | _ :: rest => exits rest

/-! ## Outcome classes of a response -/

/-- The bad-request outcome: status 400 and the prompt-required payload. -/
def IsBadRequest (status body : JSValue) : Prop :=
  status = number 400 ∧ body = errorBody "Prompt is required in the request body."

/-- The success outcome: status 200 and a payload with only a text
`response`. -/
def IsSuccess (status body : JSValue) : Prop :=
  status = number 200 ∧ ∃ text, body = responseBody text

/-- The upstream/server error outcome: an integer status from 400 on, and a
payload with only a text `error.message`, which is the empty-response message
or starts with `API Error: `. -/
def IsServerError (status body : JSValue) : Prop :=
  (∃ n : Int, status = number n ∧ 400 ≤ n) ∧
    (body = errorBody "OpenRouter returned an empty response." ∨
      ∃ detail, body = errorBody ("API Error: " ++ detail))

/-- Whether a status is an HTTP error status: an integer from 400 to 999. -/
def isErrorStatus : JSValue → Bool
  | number n => decide (400 ≤ n) && decide (n ≤ 999)
  | _ => false

/-- A failure of the upstream call that the `catch` block can answer as an
error: its properties can be read (it is neither `null` nor `undefined`), its
`status` is falsy or an HTTP error status, and the message picked at line 94
converts to text. -/
def IsApiFailure (error : JSValue) : Prop :=
  ∃ detail message status text,
    nestedDetail error = .ok detail ∧ getProp error "message" = .ok message ∧
    getProp error "status" = .ok status ∧
    (status.truthy = false ∨ isErrorStatus status = true) ∧
    toStr (orElse (orElse detail message) (string "An unexpected error occurred.")) = .ok text

/-- Whether an object has an own property of that name. -/
def hasOwn (v : JSValue) (name : String) : Bool :=
  match v with
  | object props => hasKey name props
  | _ => false

end Server


namespace Server

open JSValue

/-! ## Auxiliary facts -/

theorem apiError_ne_promptRequired (s : String) :
    "API Error: " ++ s ≠ "Prompt is required in the request body." := by
  intro h
  have h2 := congrArg String.data h
  simp [String.data_append] at h2

theorem reasoningBlock_ne_empty (s t : String) :
    "Reasoning:\n---\n" ++ s ++ "\n\n" ++ t ≠ "" := by
  intro h
  have h2 := congrArg String.data h
  simp [String.data_append] at h2

theorem contentBlock_ne_empty (s t : String) : t ++ ("Content:\n---\n" ++ s ++ "") ≠ "" := by
  intro h
  have h2 := congrArg String.data h
  simp [String.data_append] at h2

/-- The text of numbers: exact below 2^53, the nearest double with its shortest
digits above, exponent form from 21 digits on. -/
theorem numberText_examples :
    numberText 429 = "429" ∧ numberText (-42) = "-42" ∧
    numberText 9007199254740993 = "9007199254740992" ∧
    numberText 1152921504606846976 = "1152921504606847000" ∧
    numberText 100000000000000000000 = "100000000000000000000" ∧
    numberText 1000000000000000000000 = "1e+21" ∧
    numberText 123456789012345678901234567890 = "1.2345678901234568e+29" := by
  decide!

theorem string_truthy (s : String) : (string s).truthy = true ↔ s ≠ "" := by
  simp [truthy]

theorem toStr_string (s : String) : toStr (string s) = .ok s := by
  simp [toStr]

mutual
/-- A conversion to text throws nothing but the conversion `TypeError`. -/
theorem toStr_error : ∀ (v e : JSValue), toStr v = .error e → e = conversionError
  | undefined, e, h => by simp [toStr] at h
  | null, e, h => by simp [toStr] at h
  | .bool b, e, h => by simp [toStr] at h
  | number n, e, h => by simp [toStr] at h
  | string s, e, h => by simp [toStr] at h
  | array items, e, h => joinItems_error items e (by simpa [toStr] using h)
  | object props, e, h => by
    simp only [toStr] at h
    split at h
    · simpa using h.symm
    · simp at h
theorem joinItems_error : ∀ (items : List JSValue) (e : JSValue),
    joinItems items = .error e → e = conversionError
  | [], e, h => by simp [joinItems] at h
  | [v], e, h => itemStr_error v e (by simpa [joinItems] using h)
  | v :: w :: rest, e, h => by
    simp only [joinItems] at h
    cases hv : itemStr v with
    | error e1 =>
      rw [hv] at h
      have := itemStr_error v e1 hv
      simp at h
      rw [← h, this]
    | ok first =>
      rw [hv] at h
      cases hr : joinItems (w :: rest) with
      | error e2 =>
        rw [hr] at h
        have := joinItems_error (w :: rest) e2 hr
        simp at h
        rw [← h, this]
      | ok more =>
        rw [hr] at h
        simp at h
theorem itemStr_error : ∀ (v e : JSValue), itemStr v = .error e → e = conversionError
  | undefined, e, h => by simp [itemStr] at h
  | null, e, h => by simp [itemStr] at h
  | .bool b, e, h => by simp [itemStr] at h
  | number n, e, h => by simp [itemStr] at h
  | string s, e, h => by simp [itemStr] at h
  | array items, e, h => joinItems_error items e (by simpa [itemStr] using h)
  | object props, e, h => by
    simp only [itemStr] at h
    split at h
    · simpa using h.symm
    · simp at h
end

end Server

namespace Server

open JSValue

/-- Every property of a value that is neither `null` nor `undefined` can be
read. -/
theorem getProp_ok (v : JSValue) (name : String) (h : v.isNullish = false) :
    ∃ w, getProp v name = .ok w := by
  cases v <;> simp_all [getProp, isNullish]

theorem getProp_isNullish (v w : JSValue) (name : String) (h : getProp v name = .ok w) :
    v.isNullish = false := by
  cases v <;> simp_all [getProp, isNullish]

theorem nestedDetail_ok (v : JSValue) (h : v.isNullish = false) :
    ∃ w, nestedDetail v = .ok w := by
  obtain ⟨r, hr⟩ := getProp_ok v "response" h
  refine ⟨getPropOpt (getPropOpt (getPropOpt r "data") "error") "message", ?_⟩
  simp only [nestedDetail, hr]

/-- The run of the handler when the conversion of the prompt for the log line
throws. -/
theorem generate_of_log_error (create : Upstream) (req : Request) (userPrompt e : JSValue)
    (hread : getProp req.body "prompt" = .ok userPrompt) (hprompt : userPrompt.truthy = true)
    (hlog : toStr userPrompt = .error e) :
    generate create req = ⟨[], .rejected⟩ := by
  simp [generate, hread, hprompt, hlog]

/-- The run of the handler when the `try` block completes. -/
theorem generate_of_try_ok (create : Upstream) (req : Request) (userPrompt : JSValue)
    (promptText : String) (events : List Event)
    (hread : getProp req.body "prompt" = .ok userPrompt) (hprompt : userPrompt.truthy = true)
    (hlog : toStr userPrompt = .ok promptText)
    (htry : tryBlock create userPrompt = (events, .ok ())) :
    generate create req =
      ⟨Event.log .info [string ("Received prompt: \"" ++ promptText ++ "\"")] :: events,
        .fulfilled⟩ := by
  simp [generate, hread, hprompt, hlog, htry]

/-- The run of the handler when the `try` block throws. -/
theorem generate_of_catch (create : Upstream) (req : Request) (userPrompt error : JSValue)
    (promptText : String) (events handled : List Event) (settled : Settled)
    (hread : getProp req.body "prompt" = .ok userPrompt) (hprompt : userPrompt.truthy = true)
    (hlog : toStr userPrompt = .ok promptText)
    (htry : tryBlock create userPrompt = (events, .error error))
    (hcatch : catchBlock error = (handled, settled)) :
    generate create req =
      ⟨Event.log .info [string ("Received prompt: \"" ++ promptText ++ "\"")] ::
        (events ++ handled), settled⟩ := by
  simp [generate, hread, hprompt, hlog, htry, hcatch]

/-- The reply text is empty exactly when neither block was appended. -/
theorem buildResponse_eq_empty_iff (aiReasoning aiResponseContent : JSValue) :
    buildResponse aiReasoning aiResponseContent = .ok "" ↔
      aiReasoning.truthy = false ∧ aiResponseContent.truthy = false := by
  unfold buildResponse appendBlock
  cases hr : aiReasoning.truthy <;> cases hc : aiResponseContent.truthy
  · simp
  · cases toStr aiResponseContent with
    | error e => simp
    | ok text => simpa using contentBlock_ne_empty text ""
  · cases toStr aiReasoning with
    | error e => simp
    | ok text => simpa using reasoningBlock_ne_empty text ""
  · cases toStr aiReasoning with
    | error e => simp
    | ok text =>
      cases toStr aiResponseContent with
      | error e => simp
      | ok more => simpa using contentBlock_ne_empty more _

/-- What the building of the reply throws is the conversion `TypeError`. -/
theorem buildResponse_error (aiReasoning aiResponseContent e : JSValue)
    (h : buildResponse aiReasoning aiResponseContent = .error e) : e = conversionError := by
  unfold buildResponse appendBlock at h
  have h1 := toStr_error aiReasoning
  have h2 := toStr_error aiResponseContent
  cases hr : toStr aiReasoning <;> cases hc : toStr aiResponseContent <;>
    cases hrt : aiReasoning.truthy <;> cases hct : aiResponseContent.truthy <;>
    simp [hr, hc, hrt, hct] at h <;>
    first
      | exact h ▸ h1 _ hr
      | exact h ▸ h2 _ hc

/-- The `try` block when the upstream call, both reads and the building of the
reply succeed. -/
theorem tryBlock_ok (create : Upstream) (userPrompt completion content reasoning : JSValue)
    (text : String)
    (hcall : create (completionRequest userPrompt) = .ok completion)
    (hcontent : firstChoiceField completion "content" = .ok content)
    (hreasoning : firstChoiceField completion "reasoning" = .ok reasoning)
    (hbuild : buildResponse reasoning content = .ok text) :
    tryBlock create userPrompt =
      if text = "" then
        ([Event.call (completionRequest userPrompt),
          Event.log .error [string "OpenRouter response did not contain content or reasoning:", completion],
          Event.send (number 500) (errorBody "OpenRouter returned an empty response.")],
         .ok ())
      else
        ([Event.call (completionRequest userPrompt),
          Event.log .info [string "Generated response successfully."],
          Event.send (number 200) (responseBody text)],
         .ok ()) := by
  simp only [tryBlock, hcall, hcontent, hreasoning, hbuild]
  by_cases h : text = "" <;> simp [h, truthy]

/-- The `try` block when the upstream call fails. -/
theorem tryBlock_error (create : Upstream) (userPrompt error : JSValue)
    (hcall : create (completionRequest userPrompt) = .error error) :
    tryBlock create userPrompt = ([Event.call (completionRequest userPrompt)], .error error) := by
  simp only [tryBlock, hcall]

/-- The `catch` block on a value whose properties can be read, whose status
`res.status` accepts and whose message converts to text. -/
theorem catchBlock_ok (error detail message status : JSValue) (text : String)
    (hdetail : nestedDetail error = .ok detail)
    (hmessage : getProp error "message" = .ok message)
    (hstatus : getProp error "status" = .ok status)
    (haccept : acceptsStatus (orElse status (number 500)) = true)
    (htext : toStr (orElse (orElse detail message) (string "An unexpected error occurred.")) =
      .ok text) :
    catchBlock error =
      ([Event.log .error [string "Error calling OpenRouter API:", error],
        Event.send (orElse status (number 500)) (errorBody ("API Error: " ++ text))],
       .fulfilled) := by
  simp [catchBlock, hdetail, hmessage, hstatus, haccept, htext]

/-- The `catch` block sends nothing, or one response whose message starts with
`API Error: `. -/
theorem catchBlock_sends (error : JSValue) :
    (sends (catchBlock error).1 = [] ∧ calls (catchBlock error).1 = []) ∨
      ∃ status text, catchBlock error =
        ([Event.log .error [string "Error calling OpenRouter API:", error],
          Event.send status (errorBody ("API Error: " ++ text))], .fulfilled) := by
  unfold catchBlock
  cases nestedDetail error with
  | error e => exact Or.inl ⟨rfl, rfl⟩
  | ok detail =>
    cases getProp error "message" with
    | error e => exact Or.inl ⟨rfl, rfl⟩
    | ok message =>
      cases getProp error "status" with
      | error e => exact Or.inl ⟨rfl, rfl⟩
      | ok status =>
        cases haccept : acceptsStatus (orElse status (number 500))
        · exact Or.inl (by simp [haccept, sends, calls])
        · cases htext : toStr (orElse (orElse detail message)
              (string "An unexpected error occurred.")) with
          | error e => exact Or.inl (by simp [haccept, htext, sends, calls])
          | ok text =>
            exact Or.inr ⟨orElse status (number 500), text, by simp [haccept, htext]⟩

/-- The `catch` block on a `TypeError` of the handler (a failed read, or a
failed conversion): it has no `status` and no nested detail, so the answer is a
500 that carries its message. -/
theorem catchBlock_own (m : String) (hm : m ≠ "") :
    catchBlock (object [("message", string m)]) =
      ([Event.log .error [string "Error calling OpenRouter API:", object [("message", string m)]],
        Event.send (number 500) (errorBody ("API Error: " ++ m))],
       .fulfilled) := by
  simp [catchBlock, nestedDetail, getProp, lookup, getPropOpt, orElse, truthy, hm, toStr,
    acceptsStatus]

/-- What the handler itself throws while reading the completion is a
`TypeError` object with a non-empty message. -/
theorem firstChoiceField_error (completion e : JSValue) (field : String)
    (h : firstChoiceField completion field = .error e) :
    ∃ m, m ≠ "" ∧ e = object [("message", string m)] := by
  have hne : ∀ base key : String,
      ("Cannot read properties of " ++ base ++ " (reading '" ++ key ++ "')") ≠ "" := by
    intro base key h
    have h2 := congrArg String.data h
    simp [String.data_append] at h2
  cases hc : getProp completion "choices" with
  | error e1 =>
    simp only [firstChoiceField, hc] at h
    cases completion <;> simp [getProp] at hc <;> simp at h <;> subst h <;> subst hc <;>
      exact ⟨_, hne _ _, rfl⟩
  | ok choices =>
    cases hi : getIndex choices 0 with
    | error e2 =>
      simp only [firstChoiceField, hc, hi] at h
      cases choices <;> simp [getIndex] at hi <;> simp at h <;> subst h <;> subst hi <;>
        exact ⟨_, hne _ _, rfl⟩
    | ok choice =>
      simp [firstChoiceField, hc, hi] at h

/-- Whether the completion can be read depends on the completion, not on the
field. -/
theorem firstChoiceField_ok_of_ok (completion v : JSValue) (field other : String)
    (h : firstChoiceField completion field = .ok v) :
    ∃ w, firstChoiceField completion other = .ok w := by
  cases hc : getProp completion "choices" with
  | error e1 => simp [firstChoiceField, hc] at h
  | ok choices =>
    cases hi : getIndex choices 0 with
    | error e2 => simp [firstChoiceField, hc, hi] at h
    | ok choice =>
      exact ⟨getPropOpt (getPropOpt choice "message") other, by simp only [firstChoiceField, hc, hi]⟩

/-- The ways the `try` block ends: the upstream call throws, the handler throws
a `TypeError` of its own after a successful call, it sends the empty-response
error, or it sends a non-empty reply. -/
theorem tryBlock_cases (create : Upstream) (userPrompt : JSValue) :
    (∃ error, create (completionRequest userPrompt) = .error error ∧
      tryBlock create userPrompt =
        ([Event.call (completionRequest userPrompt)], .error error)) ∨
    (∃ completion m, create (completionRequest userPrompt) = .ok completion ∧ m ≠ "" ∧
      tryBlock create userPrompt =
        ([Event.call (completionRequest userPrompt)],
          .error (object [("message", string m)]))) ∨
    (∃ completion, create (completionRequest userPrompt) = .ok completion ∧
      tryBlock create userPrompt =
        ([Event.call (completionRequest userPrompt),
          Event.log .error
            [string "OpenRouter response did not contain content or reasoning:", completion],
          Event.send (number 500) (errorBody "OpenRouter returned an empty response.")],
         .ok ())) ∨
    (∃ completion text, create (completionRequest userPrompt) = .ok completion ∧ text ≠ "" ∧
      tryBlock create userPrompt =
        ([Event.call (completionRequest userPrompt),
          Event.log .info [string "Generated response successfully."],
          Event.send (number 200) (responseBody text)],
         .ok ())) := by
  cases hcall : create (completionRequest userPrompt) with
  | error error =>
    exact Or.inl ⟨error, rfl, tryBlock_error create userPrompt error hcall⟩
  | ok completion =>
    cases hcontent : firstChoiceField completion "content" with
    | error e =>
      obtain ⟨m, hm, rfl⟩ := firstChoiceField_error _ _ _ hcontent
      refine Or.inr (Or.inl ⟨completion, m, rfl, hm, ?_⟩)
      simp only [tryBlock, hcall, hcontent]
    | ok content =>
      obtain ⟨reasoning, hreasoning⟩ :=
        firstChoiceField_ok_of_ok completion content "content" "reasoning" hcontent
      cases hbuild : buildResponse reasoning content with
      | error e =>
        have he := buildResponse_error _ _ _ hbuild
        subst he
        refine Or.inr (Or.inl ⟨completion, "Cannot convert object to primitive value", rfl,
          by decide, ?_⟩)
        simp only [tryBlock, hcall, hcontent, hreasoning, hbuild]
        rfl
      | ok text =>
        rw [tryBlock_ok create userPrompt completion content reasoning text hcall hcontent
          hreasoning hbuild]
        by_cases h : text = ""
        · exact Or.inr (Or.inr (Or.inl ⟨completion, rfl, by simp [h]⟩))
        · exact Or.inr (Or.inr (Or.inr ⟨completion, text, rfl, h, by simp [h]⟩))

/-- The `catch` block makes no upstream call. -/
theorem catchBlock_calls (error : JSValue) : calls (catchBlock error).1 = [] := by
  rcases catchBlock_sends error with ⟨_, h⟩ | ⟨status, text, h⟩
  · exact h
  · rw [h]; rfl

/-- Every run of the handler on a truthy prompt that converts to text makes one
upstream call, and then either runs the `catch` block on the failure of that
call, or answers a successful call in one of three ways. -/
theorem generate_truthy_cases (create : Upstream) (req : Request) (userPrompt : JSValue)
    (promptText : String)
    (hread : getProp req.body "prompt" = .ok userPrompt) (hprompt : userPrompt.truthy = true)
    (hlog : toStr userPrompt = .ok promptText) :
    calls (generate create req).events = [completionRequest userPrompt] ∧
    ((∃ error, create (completionRequest userPrompt) = .error error ∧
        sends (generate create req).events = sends (catchBlock error).1 ∧
        (generate create req).settled = (catchBlock error).2) ∨
     (∃ completion detail, create (completionRequest userPrompt) = .ok completion ∧
        sends (generate create req).events =
          [(number 500, errorBody ("API Error: " ++ detail))] ∧
        (generate create req).settled = .fulfilled) ∨
     (∃ completion, create (completionRequest userPrompt) = .ok completion ∧
        sends (generate create req).events =
          [(number 500, errorBody "OpenRouter returned an empty response.")] ∧
        (generate create req).settled = .fulfilled) ∨
     (∃ completion text, create (completionRequest userPrompt) = .ok completion ∧ text ≠ "" ∧
        sends (generate create req).events = [(number 200, responseBody text)] ∧
        (generate create req).settled = .fulfilled)) := by
  rcases tryBlock_cases create userPrompt with
    ⟨error, hcall, htry⟩ | ⟨completion, m, hcall, hm, htry⟩ | ⟨completion, hcall, htry⟩ |
    ⟨completion, text, hcall, htext, htry⟩
  · rw [generate_of_catch create req userPrompt error promptText _
      (catchBlock error).1 (catchBlock error).2 hread hprompt hlog htry rfl]
    exact ⟨by simp [calls, catchBlock_calls], Or.inl ⟨error, hcall, by simp [sends], rfl⟩⟩
  · rw [generate_of_catch create req userPrompt _ promptText _ _ _ hread hprompt
      hlog htry (catchBlock_own m hm)]
    exact ⟨by simp [calls], Or.inr (Or.inl ⟨completion, m, hcall, by simp [sends], rfl⟩)⟩
  · rw [generate_of_try_ok create req userPrompt promptText _ hread hprompt hlog htry]
    exact ⟨by simp [calls], Or.inr (Or.inr (Or.inl ⟨completion, hcall, by simp [sends], rfl⟩))⟩
  · rw [generate_of_try_ok create req userPrompt promptText _ hread hprompt hlog htry]
    exact ⟨by simp [calls],
      Or.inr (Or.inr (Or.inr ⟨completion, text, hcall, htext, by simp [sends], rfl⟩))⟩

/-- Every run of the handler on a truthy prompt sends nothing, or exactly one
response: the reply with status 200, the empty-response 500, or an error whose
message starts with `API Error: `. -/
theorem generate_truthy_sends (create : Upstream) (req : Request) (userPrompt : JSValue)
    (hread : getProp req.body "prompt" = .ok userPrompt) (hprompt : userPrompt.truthy = true) :
    sends (generate create req).events = [] ∨
    (∃ text, sends (generate create req).events = [(number 200, responseBody text)]) ∨
    sends (generate create req).events =
      [(number 500, errorBody "OpenRouter returned an empty response.")] ∨
    (∃ status text, sends (generate create req).events =
      [(status, errorBody ("API Error: " ++ text))]) := by
  cases hlog : toStr userPrompt with
  | error e =>
    rw [generate_of_log_error create req userPrompt e hread hprompt hlog]
    exact Or.inl rfl
  | ok promptText =>
    rcases (generate_truthy_cases create req userPrompt promptText hread hprompt hlog).2 with
      ⟨error, _, hs, _⟩ | ⟨_, detail, _, hs, _⟩ | ⟨_, _, hs, _⟩ | ⟨_, text, _, _, hs, _⟩
    · rcases catchBlock_sends error with ⟨hnone, _⟩ | ⟨status, text, hcatch⟩
      · exact Or.inl (by rw [hs, hnone])
      · exact Or.inr (Or.inr (Or.inr ⟨status, text, by rw [hs, hcatch]; rfl⟩))
    · exact Or.inr (Or.inr (Or.inr ⟨number 500, detail, hs⟩))
    · exact Or.inr (Or.inr (Or.inl hs))
    · exact Or.inr (Or.inl ⟨text, hs⟩)

end Server

namespace Server

open JSValue

/-! ## The claims about `POST /generate` -/

/-- C1: when the `prompt` read from the request body is falsy, the handler
answers with status 400 and the payload
`{error: {message: 'Prompt is required in the request body.'}}` and does
nothing else, in particular it makes no upstream call; and a response with
status 400 and that payload occurs in a run only when the prompt is falsy. -/
theorem generate_prompt_required (create : Upstream) (req : Request) (userPrompt : JSValue)
    (hread : getProp req.body "prompt" = .ok userPrompt) :
    (userPrompt.truthy = false →
      generate create req =
        ⟨[Event.send (number 400) (errorBody "Prompt is required in the request body.")],
          .fulfilled⟩ ∧
      calls (generate create req).events = []) ∧
    ((number 400, errorBody "Prompt is required in the request body.") ∈
        sends (generate create req).events →
      userPrompt.truthy = false) := by
  constructor
  · intro hfalsy
    simp [generate, hread, hfalsy, calls]
  · intro hmem
    cases hprompt : userPrompt.truthy
    · rfl
    · exfalso
      rcases generate_truthy_sends create req userPrompt hread hprompt with
        h | ⟨_, h⟩ | h | ⟨_, _, h⟩
      · rw [h] at hmem
        simp at hmem
      · rw [h] at hmem
        simp [responseBody, errorBody] at hmem
      · rw [h] at hmem
        simp [errorBody] at hmem
      · rw [h] at hmem
        simp [errorBody] at hmem
        exact apiError_ne_promptRequired _ hmem.2.symm

/-- The body `{}` has no prompt: the answer is the 400 and no call is made. -/
theorem generate_prompt_required_witness :
    (generate (fun _ => .ok (object [])) ⟨object []⟩ =
        ⟨[Event.send (number 400) (errorBody "Prompt is required in the request body.")],
          .fulfilled⟩ ∧
      calls (generate (fun _ => .ok (object [])) ⟨object []⟩).events = []) :=
  (generate_prompt_required (fun _ => .ok (object [])) ⟨object []⟩ undefined rfl).1 rfl

end Server

namespace Server

open JSValue

/-- C2, as the code has it: for a truthy prompt that converts to text for the
log line, and a completion whose first choice has a non-empty content text `c`
and a falsy reasoning, the handler sends exactly one response, with status 200
and payload `{response: "Content:\n---\n" + c}`. -/
theorem generate_content_only (create : Upstream) (req : Request)
    (userPrompt completion reasoning : JSValue) (promptText c : String)
    (hread : getProp req.body "prompt" = .ok userPrompt) (hprompt : userPrompt.truthy = true)
    (hlog : toStr userPrompt = .ok promptText)
    (hcall : create (completionRequest userPrompt) = .ok completion)
    (hcontent : firstChoiceField completion "content" = .ok (string c)) (hc : c ≠ "")
    (hreasoning : firstChoiceField completion "reasoning" = .ok reasoning)
    (hr : reasoning.truthy = false) :
    sends (generate create req).events = [(number 200, responseBody ("Content:\n---\n" ++ c))] ∧
      (generate create req).settled = .fulfilled := by
  have hbuild : buildResponse reasoning (string c) = .ok ("Content:\n---\n" ++ c) := by
    simp [buildResponse, appendBlock, hr, (string_truthy c).2 hc, toStr_string]
  have hne : "Content:\n---\n" ++ c ≠ "" := by
    simpa using contentBlock_ne_empty c ""
  have htry := tryBlock_ok create userPrompt completion (string c) reasoning _ hcall hcontent
    hreasoning hbuild
  rw [if_neg hne] at htry
  rw [generate_of_try_ok create req userPrompt promptText _ hread hprompt hlog htry]
  simp [sends]

/-- The mocked upstream that returns content "Hello" and no reasoning gives the
response `"Content:\n---\nHello"`. -/
theorem generate_content_only_witness :
    sends (generate
        (fun _ => .ok (object [("choices", array [object [("message",
          object [("content", string "Hello")])]])]))
        ⟨object [("prompt", string "Say hello")]⟩).events =
      [(number 200, responseBody "Content:\n---\nHello")] :=
  (generate_content_only
    (fun _ => .ok (object [("choices", array [object [("message",
      object [("content", string "Hello")])]])]))
    ⟨object [("prompt", string "Say hello")]⟩ (string "Say hello")
    (object [("choices", array [object [("message", object [("content", string "Hello")])]])])
    undefined "Say hello" "Hello" rfl rfl rfl rfl rfl (by decide) rfl rfl).1

/-- C2 as stated fails: the prompt `{toString: 1}` is truthy, but the template
literal of the log line cannot convert it and throws before the `try` block, so
with the upstream that would return content "Hello" no call is made and no
response is sent. -/
theorem generate_content_only_counterexample :
    generate
        (fun _ => .ok (object [("choices", array [object [("message",
          object [("content", string "Hello")])]])]))
        ⟨object [("prompt", object [("toString", number 1)])]⟩ =
      ⟨[], .rejected⟩ :=
  rfl

/-- C3, as the code has it: for a truthy prompt that converts to text for the
log line, and a completion whose first choice has a non-empty reasoning text
`r` and a non-empty content text `c`, the handler sends exactly one response,
with status 200 and payload
`{response: "Reasoning:\n---\n" + r + "\n\n" + "Content:\n---\n" + c}`: the
Reasoning block comes before the Content block. -/
theorem generate_reasoning_and_content (create : Upstream) (req : Request)
    (userPrompt completion : JSValue) (promptText r c : String)
    (hread : getProp req.body "prompt" = .ok userPrompt) (hprompt : userPrompt.truthy = true)
    (hlog : toStr userPrompt = .ok promptText)
    (hcall : create (completionRequest userPrompt) = .ok completion)
    (hreasoning : firstChoiceField completion "reasoning" = .ok (string r)) (hr : r ≠ "")
    (hcontent : firstChoiceField completion "content" = .ok (string c)) (hc : c ≠ "") :
    sends (generate create req).events =
        [(number 200,
          responseBody ("Reasoning:\n---\n" ++ r ++ "\n\n" ++ ("Content:\n---\n" ++ c)))] ∧
      (generate create req).settled = .fulfilled := by
  have hbuild : buildResponse (string r) (string c) =
      .ok ("Reasoning:\n---\n" ++ r ++ "\n\n" ++ ("Content:\n---\n" ++ c)) := by
    simp [buildResponse, appendBlock, (string_truthy r).2 hr, (string_truthy c).2 hc,
      toStr_string]
  have htry := tryBlock_ok create userPrompt completion (string c) (string r) _ hcall hcontent
    hreasoning hbuild
  rw [if_neg (reasoningBlock_ne_empty r _)] at htry
  rw [generate_of_try_ok create req userPrompt promptText _ hread hprompt hlog htry]
  simp [sends]

/-- The mocked upstream that returns reasoning "R" and content "C" gives the
response `"Reasoning:\n---\nR\n\nContent:\n---\nC"`. -/
theorem generate_reasoning_and_content_witness :
    sends (generate
        (fun _ => .ok (object [("choices", array [object [("message",
          object [("content", string "C"), ("reasoning", string "R")])]])]))
        ⟨object [("prompt", string "think")]⟩).events =
      [(number 200, responseBody "Reasoning:\n---\nR\n\nContent:\n---\nC")] :=
  (generate_reasoning_and_content
    (fun _ => .ok (object [("choices", array [object [("message",
      object [("content", string "C"), ("reasoning", string "R")])]])]))
    ⟨object [("prompt", string "think")]⟩ (string "think")
    (object [("choices", array [object [("message",
      object [("content", string "C"), ("reasoning", string "R")])]])])
    "think" "R" "C" rfl rfl rfl rfl rfl (by decide) rfl (by decide)).1

/-- C3 as stated fails: the prompt `[{toString: null}]` is truthy, but the
template literal of the log line joins the array, cannot convert its element
and throws before the `try` block, so with the upstream that would return
reasoning "R" and content "C" no call is made and no response is sent. -/
theorem generate_reasoning_and_content_counterexample :
    generate
        (fun _ => .ok (object [("choices", array [object [("message",
          object [("content", string "C"), ("reasoning", string "R")])]])]))
        ⟨object [("prompt", array [object [("toString", null)]])]⟩ =
      ⟨[], .rejected⟩ :=
  rfl

/-- C4, at the failing input: the upstream call succeeds with a completion that
has no `choices` (an error object delivered with a success status), so there is
neither content nor reasoning; reading `choices[0]` throws and the `catch`
block answers with status 500 and the message of that `TypeError`, not with
'OpenRouter returned an empty response.'. -/
theorem generate_missing_choices :
    sends (generate
        (fun _ => .ok (object [("error", object [("message", string "Provider returned error")])]))
        ⟨object [("prompt", string "hi")]⟩).events =
      [(number 500,
        errorBody "API Error: Cannot read properties of undefined (reading '0')")] :=
  rfl

/-- C7, as the code has it: for a truthy prompt `p` that converts to text for
the log line, the handler makes exactly one upstream call, whatever that call
returns or throws; its `messages` is the one-element list with role "user" and
content `p` itself, and its `reasoning` option is `{include: true}`. -/
theorem generate_one_call (create : Upstream) (req : Request) (userPrompt : JSValue)
    (promptText : String)
    (hread : getProp req.body "prompt" = .ok userPrompt) (hprompt : userPrompt.truthy = true)
    (hlog : toStr userPrompt = .ok promptText) :
    ∃ args, calls (generate create req).events = [args] ∧
      getProp args "messages" =
        .ok (array [object [("role", string "user"), ("content", userPrompt)]]) ∧
      getProp args "reasoning" = .ok (object [("include", bool true)]) :=
  ⟨completionRequest userPrompt,
    (generate_truthy_cases create req userPrompt promptText hread hprompt hlog).1, rfl, rfl⟩

/-- A prompt with blanks around it is passed on as it is, also when the call
fails. -/
theorem generate_one_call_witness :
    ∃ args, calls (generate (fun _ => .error (object []))
        ⟨object [("prompt", string "  two words ")]⟩).events = [args] ∧
      getProp args "messages" =
        .ok (array [object [("role", string "user"), ("content", string "  two words ")]]) ∧
      getProp args "reasoning" = .ok (object [("include", bool true)]) :=
  generate_one_call (fun _ => .error (object [])) ⟨object [("prompt", string "  two words ")]⟩
    (string "  two words ") "  two words " rfl rfl rfl

/-- C7 as stated fails: the prompt `{text: "hi", toString: false}` is truthy,
but the template literal of the log line throws before the `try` block, and the
handler makes no upstream call at all. -/
theorem generate_one_call_counterexample :
    calls (generate (fun _ => .ok (object [("choices", array [])]))
        ⟨object [("prompt", object [("text", string "hi"), ("toString", bool false)])]⟩).events =
      [] :=
  rfl

/-- C8, as the code has it: for a truthy prompt that converts to text for the
log line, and a completion whose first choice has a non-empty reasoning text
`r` and a falsy content, the handler answers with status 200 and `response`
equal to `"Reasoning:\n---\n" + r + "\n\n"`: there is no Content label, and the
blank line that ends the Reasoning block is there although no block follows. -/
theorem generate_reasoning_only (create : Upstream) (req : Request)
    (userPrompt completion content : JSValue) (promptText r : String)
    (hread : getProp req.body "prompt" = .ok userPrompt) (hprompt : userPrompt.truthy = true)
    (hlog : toStr userPrompt = .ok promptText)
    (hcall : create (completionRequest userPrompt) = .ok completion)
    (hreasoning : firstChoiceField completion "reasoning" = .ok (string r)) (hr : r ≠ "")
    (hcontent : firstChoiceField completion "content" = .ok content)
    (hc : content.truthy = false) :
    sends (generate create req).events =
        [(number 200, responseBody ("Reasoning:\n---\n" ++ r ++ "\n\n"))] ∧
      (generate create req).settled = .fulfilled := by
  have hbuild : buildResponse (string r) content = .ok ("Reasoning:\n---\n" ++ r ++ "\n\n") := by
    simp [buildResponse, appendBlock, (string_truthy r).2 hr, hc, toStr_string]
  have hne : "Reasoning:\n---\n" ++ r ++ "\n\n" ≠ "" := by
    simpa using reasoningBlock_ne_empty r ""
  have htry := tryBlock_ok create userPrompt completion content (string r) _ hcall hcontent
    hreasoning hbuild
  rw [if_neg hne] at htry
  rw [generate_of_try_ok create req userPrompt promptText _ hread hprompt hlog htry]
  simp [sends]

/-- Reasoning "R" without content gives `"Reasoning:\n---\nR\n\n"`. -/
theorem generate_reasoning_only_witness :
    sends (generate
        (fun _ => .ok (object [("choices", array [object [("message",
          object [("reasoning", string "R")])]])]))
        ⟨object [("prompt", string "think")]⟩).events =
      [(number 200, responseBody "Reasoning:\n---\nR\n\n")] :=
  (generate_reasoning_only
    (fun _ => .ok (object [("choices", array [object [("message",
      object [("reasoning", string "R")])]])]))
    ⟨object [("prompt", string "think")]⟩ (string "think")
    (object [("choices", array [object [("message", object [("reasoning", string "R")])]])])
    undefined "think" "R" rfl rfl rfl rfl rfl (by decide) rfl rfl).1

/-- C8 as stated fails twice: with reasoning "R" and a `null` content the
`response` is not `"Reasoning:\n---\nR"`, it ends with the blank line; and for
the truthy prompt `{toString: 1}` the log line throws and nothing is sent. -/
theorem generate_reasoning_only_counterexample :
    (sends (generate
        (fun _ => .ok (object [("choices", array [object [("message",
          object [("content", null), ("reasoning", string "R")])]])]))
        ⟨object [("prompt", string "think")]⟩).events =
      [(number 200, responseBody "Reasoning:\n---\nR\n\n")] ∧
    sends (generate
        (fun _ => .ok (object [("choices", array [object [("message",
          object [("content", null), ("reasoning", string "R")])]])]))
        ⟨object [("prompt", string "think")]⟩).events ≠
      [(number 200, responseBody "Reasoning:\n---\nR")]) ∧
    sends (generate
        (fun _ => .ok (object [("choices", array [object [("message",
          object [("content", null), ("reasoning", string "R")])]])]))
        ⟨object [("prompt", object [("toString", number 1)])]⟩).events = [] := by
  refine ⟨⟨rfl, ?_⟩, rfl⟩
  intro h
  have h2 : sends (generate
      (fun _ => .ok (object [("choices", array [object [("message",
        object [("content", null), ("reasoning", string "R")])]])]))
      ⟨object [("prompt", string "think")]⟩).events =
    [(number 200, responseBody "Reasoning:\n---\nR\n\n")] := rfl
  rw [h2] at h
  simp [responseBody] at h

end Server

namespace Server

open JSValue

/-- C5, as the code has it: for a truthy prompt that converts to text for the
log line, and a failure of the upstream call whose properties can be read,
whose `status` is falsy or a status `res.status` accepts (an integer from 100 to
999), and whose message converts to text, the status of the one response is the
`status` of the failure when that is truthy, and 500 when it is falsy
(`undefined`, `null`, `0`). -/
theorem generate_failure_status (create : Upstream) (req : Request)
    (userPrompt error status detail message : JSValue) (promptText text : String)
    (hread : getProp req.body "prompt" = .ok userPrompt) (hprompt : userPrompt.truthy = true)
    (hlog : toStr userPrompt = .ok promptText)
    (hcall : create (completionRequest userPrompt) = .error error)
    (hstatus : getProp error "status" = .ok status)
    (hvalid : status.truthy = true → acceptsStatus status = true)
    (hdetail : nestedDetail error = .ok detail)
    (hmessage : getProp error "message" = .ok message)
    (htext : toStr (orElse (orElse detail message) (string "An unexpected error occurred.")) =
      .ok text) :
    (status.truthy = true → ∃ body, sends (generate create req).events = [(status, body)]) ∧
    (status.truthy = false →
      ∃ body, sends (generate create req).events = [(number 500, body)]) := by
  have haccept : acceptsStatus (orElse status (number 500)) = true := by
    cases hst : status.truthy
    · simp [orElse, hst, acceptsStatus]
    · simpa [orElse, hst] using hvalid hst
  have hrun := generate_of_catch create req userPrompt error promptText _ _ _ hread hprompt hlog
    (tryBlock_error create userPrompt error hcall)
    (catchBlock_ok error detail message status text hdetail hmessage hstatus haccept htext)
  rw [hrun]
  constructor
  · intro h
    exact ⟨errorBody ("API Error: " ++ text), by simp [sends, orElse, h]⟩
  · intro h
    exact ⟨errorBody ("API Error: " ++ text), by simp [sends, orElse, h]⟩

/-- A rejection that carries status 429 is answered with status 429. -/
theorem generate_failure_status_witness :
    ∃ body, sends (generate
        (fun _ => .error (object [("status", number 429), ("message", string "rate limited")]))
        ⟨object [("prompt", string "hi")]⟩).events = [(number 429, body)] :=
  (generate_failure_status
    (fun _ => .error (object [("status", number 429), ("message", string "rate limited")]))
    ⟨object [("prompt", string "hi")]⟩ (string "hi")
    (object [("status", number 429), ("message", string "rate limited")]) (number 429)
    undefined (string "rate limited") "hi" "rate limited"
    rfl rfl rfl rfl rfl (fun _ => rfl) rfl rfl rfl).1 rfl

/-- C5 as stated fails: no response at all, so no status 500 and no mirrored
status, when the upstream call throws `null`, when the failure carries the
status 99, which `res.status` refuses, when the message of the failure is
`{toString: 1}`, which the template literal of line 95 cannot convert, and when
the truthy prompt is `{toString: 1}`, on which the log line throws. -/
theorem generate_failure_status_counterexample :
    sends (generate (fun _ => .error null) ⟨object [("prompt", string "hi")]⟩).events = [] ∧
    sends (generate
        (fun _ => .error (object [("status", number 99), ("message", string "odd")]))
        ⟨object [("prompt", string "hi")]⟩).events = [] ∧
    sends (generate
        (fun _ => .error (object [("status", number 503),
          ("message", object [("toString", number 1)])]))
        ⟨object [("prompt", string "hi")]⟩).events = [] ∧
    sends (generate
        (fun _ => .error (object [("status", number 429), ("message", string "rate limited")]))
        ⟨object [("prompt", object [("toString", number 1)])]⟩).events = [] :=
  ⟨rfl, rfl, rfl, rfl⟩

/-- C6, as the code has it: for a truthy prompt that converts to text for the
log line, and a failure of the upstream call whose properties can be read and
whose `status` is falsy or a status `res.status` accepts, let `m` be the nested
detail `response.data.error.message` of the failure when that is truthy, else
the `message` of the failure when that is truthy, else the text
'An unexpected error occurred.'; when `m` converts to text, the payload of the
one response is `{error: {message: 'API Error: ' + m}}`. -/
theorem generate_failure_message (create : Upstream) (req : Request)
    (userPrompt error status detail message : JSValue) (promptText text : String)
    (hread : getProp req.body "prompt" = .ok userPrompt) (hprompt : userPrompt.truthy = true)
    (hlog : toStr userPrompt = .ok promptText)
    (hcall : create (completionRequest userPrompt) = .error error)
    (hstatus : getProp error "status" = .ok status)
    (hvalid : status.truthy = true → acceptsStatus status = true)
    (hdetail : nestedDetail error = .ok detail)
    (hmessage : getProp error "message" = .ok message)
    (htext : toStr (if detail.truthy = true then detail
        else if message.truthy = true then message
        else string "An unexpected error occurred.") = .ok text) :
    ∃ code, sends (generate create req).events =
      [(code, errorBody ("API Error: " ++ text))] := by
  have haccept : acceptsStatus (orElse status (number 500)) = true := by
    cases hst : status.truthy
    · simp [orElse, hst, acceptsStatus]
    · simpa [orElse, hst] using hvalid hst
  have hpick : orElse (orElse detail message) (string "An unexpected error occurred.") =
      (if detail.truthy = true then detail
        else if message.truthy = true then message
        else string "An unexpected error occurred.") := by
    cases hd : detail.truthy <;> cases hm : message.truthy <;> simp [orElse, hd, hm]
  have hrun := generate_of_catch create req userPrompt error promptText _ _ _ hread hprompt hlog
    (tryBlock_error create userPrompt error hcall)
    (catchBlock_ok error detail message status text hdetail hmessage hstatus haccept
      (by rw [hpick]; exact htext))
  rw [hrun]
  exact ⟨orElse status (number 500), by simp [sends]⟩

/-- A failure with message "rate limited" gives 'API Error: rate limited', and
a nested detail wins over the message of the failure. -/
theorem generate_failure_message_witness :
    (∃ code, sends (generate
        (fun _ => .error (object [("status", number 429), ("message", string "rate limited")]))
        ⟨object [("prompt", string "hi")]⟩).events =
      [(code, errorBody "API Error: rate limited")]) ∧
    (∃ code, sends (generate
        (fun _ => .error (object [("message", string "outer"), ("response", object [("data",
          object [("error", object [("message", string "inner")])])])]))
        ⟨object [("prompt", string "hi")]⟩).events =
      [(code, errorBody "API Error: inner")]) :=
  ⟨generate_failure_message
    (fun _ => .error (object [("status", number 429), ("message", string "rate limited")]))
    ⟨object [("prompt", string "hi")]⟩ (string "hi")
    (object [("status", number 429), ("message", string "rate limited")])
    (number 429) undefined (string "rate limited") "hi" "rate limited"
    rfl rfl rfl rfl rfl (fun _ => rfl) rfl rfl rfl,
   generate_failure_message
    (fun _ => .error (object [("message", string "outer"), ("response", object [("data",
      object [("error", object [("message", string "inner")])])])]))
    ⟨object [("prompt", string "hi")]⟩ (string "hi")
    (object [("message", string "outer"), ("response", object [("data",
      object [("error", object [("message", string "inner")])])])])
    undefined (string "inner") (string "outer") "hi" "inner"
    rfl rfl rfl rfl rfl (fun h => by simp [truthy] at h) rfl rfl rfl⟩

/-- C6 as stated fails: no response at all, so no payload, when the message of
the failure is `{toString: 1}`, which the template literal of line 95 cannot
convert, when the upstream call throws `undefined`, when the failure carries
the status "429" as a text, which `res.status` refuses, and when the truthy
prompt is `{toString: 1}`, on which the log line throws. -/
theorem generate_failure_message_counterexample :
    sends (generate
        (fun _ => .error (object [("message", object [("toString", number 1)])]))
        ⟨object [("prompt", string "hi")]⟩).events = [] ∧
    sends (generate (fun _ => .error undefined) ⟨object [("prompt", string "hi")]⟩).events = [] ∧
    sends (generate
        (fun _ => .error (object [("status", string "429"), ("message", string "rate limited")]))
        ⟨object [("prompt", string "hi")]⟩).events = [] ∧
    sends (generate
        (fun _ => .error (object [("message", string "rate limited")]))
        ⟨object [("prompt", object [("toString", number 1)])]⟩).events = [] :=
  ⟨rfl, rfl, rfl, rfl⟩

end Server

namespace Server

open JSValue

/-- C9, as the code has it: for a request body from which `prompt` can be read,
a prompt that converts to text for the log line, and an upstream call that
returns a value or throws a failure the `catch` block can answer as an error
(properties readable, `status` falsy or an HTTP error status, message
convertible to text), the handler ends normally and sends exactly one
response, which is in exactly one of three classes: bad request (status 400,
the prompt-required payload), success (status 200, payload with only a text
`response`), or upstream/server error (a status from 400 on, payload with only
a text `error.message`). The bad-request class occurs exactly for a falsy
prompt, the payload has a `response` field exactly when the status is 200, and
a failed upstream call ends in the error class. -/
theorem generate_three_outcomes (create : Upstream) (req : Request) (userPrompt : JSValue)
    (promptText : String)
    (hread : getProp req.body "prompt" = .ok userPrompt)
    (hlog : toStr userPrompt = .ok promptText)
    (hfail : ∀ error, create (completionRequest userPrompt) = .error error →
      IsApiFailure error) :
    (generate create req).settled = .fulfilled ∧
    ∃ status body, sends (generate create req).events = [(status, body)] ∧
      ((IsBadRequest status body ∧ ¬IsSuccess status body ∧ ¬IsServerError status body) ∨
       (¬IsBadRequest status body ∧ IsSuccess status body ∧ ¬IsServerError status body) ∨
       (¬IsBadRequest status body ∧ ¬IsSuccess status body ∧ IsServerError status body)) ∧
      (IsBadRequest status body ↔ userPrompt.truthy = false) ∧
      (hasOwn body "response" = true ↔ status = number 200) ∧
      (userPrompt.truthy = true →
        (∃ error, create (completionRequest userPrompt) = .error error) →
        IsServerError status body) := by
  have hbad : IsBadRequest (number 400) (errorBody "Prompt is required in the request body.") ∧
      ¬IsSuccess (number 400) (errorBody "Prompt is required in the request body.") ∧
      ¬IsServerError (number 400) (errorBody "Prompt is required in the request body.") := by
    refine ⟨⟨rfl, rfl⟩, ?_, ?_⟩
    · rintro ⟨h, _⟩
      simp at h
    · rintro ⟨_, h | ⟨detail, h⟩⟩
      · simp [errorBody] at h
      · simp [errorBody] at h
        exact apiError_ne_promptRequired _ h.symm
  have hsuccess : ∀ text : String,
      ¬IsBadRequest (number 200) (responseBody text) ∧
      IsSuccess (number 200) (responseBody text) ∧
      ¬IsServerError (number 200) (responseBody text) := by
    intro text
    refine ⟨?_, ⟨rfl, text, rfl⟩, ?_⟩
    · rintro ⟨h, _⟩
      simp at h
    · rintro ⟨⟨n, hn, hle⟩, _⟩
      simp at hn
      omega
  have herror : ∀ (n : Int) (body : JSValue), 400 ≤ n →
      (body = errorBody "OpenRouter returned an empty response." ∨
        ∃ detail, body = errorBody ("API Error: " ++ detail)) →
      (¬IsBadRequest (number n) body ∧ ¬IsSuccess (number n) body ∧
        IsServerError (number n) body) ∧
      (hasOwn body "response" = true ↔ number n = number 200) := by
    intro n body hn hbody
    refine ⟨⟨?_, ?_, ⟨⟨n, rfl, hn⟩, hbody⟩⟩, ?_⟩
    · rintro ⟨_, h⟩
      rcases hbody with hb | ⟨detail, hb⟩
      · rw [hb] at h
        simp [errorBody] at h
      · rw [hb] at h
        simp [errorBody] at h
        exact apiError_ne_promptRequired _ h
    · rintro ⟨h, _⟩
      simp at h
      omega
    · constructor
      · intro h
        rcases hbody with hb | ⟨detail, hb⟩ <;> rw [hb] at h <;>
          simp [hasOwn, hasKey, errorBody] at h
      · intro h
        simp at h
        omega
  cases hprompt : userPrompt.truthy
  · have hrun : generate create req =
        ⟨[Event.send (number 400) (errorBody "Prompt is required in the request body.")],
          .fulfilled⟩ := by
      simp [generate, hread, hprompt]
    rw [hrun]
    refine ⟨rfl, number 400, errorBody "Prompt is required in the request body.", rfl,
      Or.inl hbad, ⟨fun _ => rfl, fun _ => hbad.1⟩, ?_, fun h => by simp at h⟩
    constructor
    · intro h
      simp [hasOwn, hasKey, errorBody] at h
    · intro h
      simp at h
  · rcases (generate_truthy_cases create req userPrompt promptText hread hprompt hlog).2 with
      ⟨error, hcall, hs, hf⟩ | ⟨completion, detail, hcall, hs, hf⟩ |
      ⟨completion, hcall, hs, hf⟩ | ⟨completion, text, hcall, _, hs, hf⟩
    · obtain ⟨detail, message, status, text, hdetail, hmessage, hstatus, hst, htext⟩ :=
        hfail error hcall
      have hcode : ∃ n : Int, orElse status (number 500) = number n ∧ 400 ≤ n ∧ n ≤ 999 := by
        rcases hst with hst | hst
        · exact ⟨500, by simp [orElse, hst], by decide, by decide⟩
        · cases status <;> simp [isErrorStatus] at hst
          case number n =>
            have hne : n ≠ 0 := by omega
            exact ⟨n, by simp [orElse, truthy, hne], hst.1, hst.2⟩
      obtain ⟨n, hn, hlo, hhi⟩ := hcode
      have haccept : acceptsStatus (orElse status (number 500)) = true := by
        rw [hn]
        simp [acceptsStatus]
        omega
      have hcatch := catchBlock_ok error detail message status text hdetail hmessage hstatus
        haccept htext
      rw [hcatch] at hs hf
      rw [hn] at hs
      have hclass := herror n (errorBody ("API Error: " ++ text)) hlo (Or.inr ⟨text, rfl⟩)
      refine ⟨hf, number n, errorBody ("API Error: " ++ text), by rw [hs]; rfl,
        Or.inr (Or.inr hclass.1), ?_, hclass.2, fun _ _ => hclass.1.2.2⟩
      exact ⟨fun h => absurd h hclass.1.1, fun h => by simp at h⟩
    · have hclass := herror 500 (errorBody ("API Error: " ++ detail)) (by decide)
        (Or.inr ⟨detail, rfl⟩)
      refine ⟨hf, number 500, errorBody ("API Error: " ++ detail), hs,
        Or.inr (Or.inr hclass.1), ?_, hclass.2, fun _ _ => hclass.1.2.2⟩
      exact ⟨fun h => absurd h hclass.1.1, fun h => by simp at h⟩
    · have hclass := herror 500 (errorBody "OpenRouter returned an empty response.")
        (by decide) (Or.inl rfl)
      refine ⟨hf, number 500, errorBody "OpenRouter returned an empty response.", hs,
        Or.inr (Or.inr hclass.1), ?_, hclass.2, fun _ _ => hclass.1.2.2⟩
      exact ⟨fun h => absurd h hclass.1.1, fun h => by simp at h⟩
    · have hclass := hsuccess text
      refine ⟨hf, number 200, responseBody text, hs, Or.inr (Or.inl hclass), ?_, ?_, ?_⟩
      · exact ⟨fun h => absurd h hclass.1, fun h => by simp at h⟩
      · exact ⟨fun _ => rfl, fun _ => by simp [hasOwn, hasKey, responseBody]⟩
      · rintro _ ⟨error, herror⟩
        rw [hcall] at herror
        simp at herror

/-- A failure with status 429 and message "rate limited" is one the `catch`
block can answer: the handler ends normally. -/
theorem generate_three_outcomes_witness :
    (generate
        (fun _ => .error (object [("status", number 429), ("message", string "rate limited")]))
        ⟨object [("prompt", string "hi")]⟩).settled = .fulfilled :=
  (generate_three_outcomes
    (fun _ => .error (object [("status", number 429), ("message", string "rate limited")]))
    ⟨object [("prompt", string "hi")]⟩ (string "hi") "hi" rfl rfl
    (fun error h => by
      have h2 : error = object [("status", number 429), ("message", string "rate limited")] := by
        simpa using h.symm
      rw [h2]
      exact ⟨undefined, string "rate limited", number 429, "rate limited",
        rfl, rfl, rfl, Or.inr rfl, rfl⟩)).1

/-- C9 as stated fails: the handler sends no response and ends by throwing for
the truthy prompt `{toString: 1}`, on which the log line throws; it sends no
response either when the upstream call throws `null`, when the failure carries
the status 99, which `res.status` refuses, and when its message is
`{toString: 1}`; and a failure that carries the redirect status 302 is answered
with status 302, which is neither 200 nor 400 or above. -/
theorem generate_three_outcomes_counterexample :
    generate (fun _ => .ok (object [("choices", array [object [("message",
          object [("content", string "Hello")])]])]))
        ⟨object [("prompt", object [("toString", number 1)])]⟩ = ⟨[], .rejected⟩ ∧
    sends (generate (fun _ => .error null) ⟨object [("prompt", string "hi")]⟩).events = [] ∧
    sends (generate
        (fun _ => .error (object [("status", number 99), ("message", string "odd")]))
        ⟨object [("prompt", string "hi")]⟩).events = [] ∧
    sends (generate
        (fun _ => .error (object [("status", number 503),
          ("message", object [("toString", number 1)])]))
        ⟨object [("prompt", string "hi")]⟩).events = [] ∧
    sends (generate
        (fun _ => .error (object [("status", number 302), ("message", string "Found")]))
        ⟨object [("prompt", string "hi")]⟩).events =
      [(number 302, errorBody "API Error: Found")] :=
  ⟨rfl, rfl, rfl, rfl, rfl⟩

end Server

namespace Server

open JSValue

/-! ## The claim about start-up -/

/-- C10: when `OPENROUTER_API_KEY` is unset or empty, loading the module logs
two error lines and exits with code 1, before any client is created and before
any `listen`; when it is set to a non-empty text, the client is created with
it, the route is registered and the server listens on `PORT`, or on 3000 when
`PORT` is unset or empty, and nothing exits. A request to the started server is
answered by the handler alone, whose run does not depend on the environment. -/
theorem startup_api_key (env : Env) :
    ((env "OPENROUTER_API_KEY" = none ∨ env "OPENROUTER_API_KEY" = some "") →
      startup env =
        [StartupEvent.use "express.json", StartupEvent.use "express.static",
          StartupEvent.logError
            "Error: OPENROUTER_API_KEY not found in .env file or environment variables.",
          StartupEvent.logError "Please set OPENROUTER_API_KEY to your OpenRouter API key.",
          StartupEvent.exit 1] ∧
      exits (startup env) = [1] ∧ createsClient (startup env) = false ∧
      listens (startup env) = [] ∧
      ∀ create req, serve env create req = none) ∧
    (∀ key, env "OPENROUTER_API_KEY" = some key → key ≠ "" →
      startup env =
        [StartupEvent.use "express.json", StartupEvent.use "express.static",
          StartupEvent.createClient "https://openrouter.ai/api/v1" (string key)
            [("HTTP-Referer", "http://localhost:3000"), ("X-Title", "Your App Name Here")],
          StartupEvent.post "/generate",
          StartupEvent.listen (port env)] ∧
      exits (startup env) = [] ∧ createsClient (startup env) = true ∧
      listens (startup env) = [port env] ∧
      ∀ create req, serve env create req = some (generate create req)) ∧
    (∀ p, env "PORT" = some p → p ≠ "" → port env = string p) ∧
    ((env "PORT" = none ∨ env "PORT" = some "") → port env = number 3000) := by
  refine ⟨?_, ?_, ?_, ?_⟩
  · intro h
    have hkey : (envValue env "OPENROUTER_API_KEY").truthy = false := by
      rcases h with h | h <;> simp [envValue, h, truthy]
    have hstart : startup env =
        [StartupEvent.use "express.json", StartupEvent.use "express.static",
          StartupEvent.logError
            "Error: OPENROUTER_API_KEY not found in .env file or environment variables.",
          StartupEvent.logError "Please set OPENROUTER_API_KEY to your OpenRouter API key.",
          StartupEvent.exit 1] := by
      simp [startup, hkey]
    refine ⟨hstart, ?_, ?_, ?_, ?_⟩
    · rw [hstart]; rfl
    · rw [hstart]; rfl
    · rw [hstart]; rfl
    · intro create req
      simp [serve, hstart, registersGenerate]
  · intro key h hne
    have hval : envValue env "OPENROUTER_API_KEY" = string key := by
      simp [envValue, h]
    have hstart : startup env =
        [StartupEvent.use "express.json", StartupEvent.use "express.static",
          StartupEvent.createClient "https://openrouter.ai/api/v1" (string key)
            [("HTTP-Referer", "http://localhost:3000"), ("X-Title", "Your App Name Here")],
          StartupEvent.post "/generate",
          StartupEvent.listen (port env)] := by
      simp [startup, hval, (string_truthy key).2 hne]
    refine ⟨hstart, ?_, ?_, ?_, ?_⟩
    · rw [hstart]; rfl
    · rw [hstart]; rfl
    · rw [hstart]; rfl
    · intro create req
      simp [serve, hstart, registersGenerate]
  · intro p h hne
    simp [port, envValue, h, orElse, (string_truthy p).2 hne]
  · intro h
    rcases h with h | h <;> simp [port, envValue, h, orElse, truthy]

/-- An environment with only `PORT` set exits with code 1; with only the key
set the server listens on 3000. -/
theorem startup_api_key_witness :
    exits (startup (fun name => if name = "PORT" then some "8080" else none)) = [1] ∧
    listens (startup (fun name => if name = "OPENROUTER_API_KEY" then some "sk-or-1" else none)) =
      [number 3000] :=
  ⟨((startup_api_key (fun name => if name = "PORT" then some "8080" else none)).1
      (Or.inl rfl)).2.1,
   by
    have h := startup_api_key
      (fun name => if name = "OPENROUTER_API_KEY" then some "sk-or-1" else none)
    have hl := (h.2.1 "sk-or-1" rfl (by decide)).2.2.2.1
    have hp := h.2.2.2 (Or.inl rfl)
    rw [hl, hp]⟩

end Server
